import Mathlib

/-!
Shallow embedding of `pkg/database/sqlite.go` from the
`golang-service-template` repository: the SQLite lifecycle manager
(`New`, `Close`) and the versioned schema-migration engine
(`migrate`, `migrateFile`).

The SQLite driver itself is outside the repository, so its behaviour is
abstracted into oracles (`Env`): whether `Begin`/`INSERT`/`COMMIT`
succeed for a given script, what effect a script body has on the schema,
and the contents of the embedded migration filesystem.  The Go functions
are translated line by line against those oracles.
-/

namespace SqliteGo

/-- Abstract database state visible to the migration engine:
whether the `migrations` bookkeeping table exists, the rows of that
table (script names), and an abstract schema (the committed effects of
executed script bodies). -/
structure DBState where
  hasMigrationsTable : Bool
  records : List String
  schema : List String
deriving Repr, DecidableEq

/-- Observable events emitted while migrating, in program order:
transaction lifecycle, the already-applied check, body execution, the
bookkeeping insert, and the `fmt.Printf` success message. -/
inductive Ev where
  | createTableIfAbsent : Ev
  | txBegin : String → Ev
  | checkApplied : String → Ev
  | execBody : String → Ev
  | insertRecord : String → Ev
  | printSuccess : String → Ev
  | txCommit : String → Ev
  | txRollback : String → Ev
deriving Repr, DecidableEq

/-- Driver/filesystem oracles for the migration engine:
`files` is the embedded `migration/*.sql` filesystem (name, body);
`beginOk` whether `db.Begin()` succeeds; `execSql` the effect of running
a script body on the abstract schema (`none` = SQL error); `insertOk`
whether the bookkeeping `INSERT` succeeds; `commitOk` whether
`tx.Commit()` succeeds. -/
structure Env where
  files : List (String × String)
  beginOk : String → Bool
  execSql : String → List String → Option (List String)
  insertOk : String → Bool
  commitOk : String → Bool

/-- `fs.ReadFile(migrationFS, name)`: look up a file body by name. -/
def lookupFile : List (String × String) → String → Option String
  | [], _ => none
  | (n, b) :: rest, name => if n = name then some b else lookupFile rest name

/-- Embedding of `migrateFile` (sqlite.go:120-149): run a single
migration file inside a transaction.  Returns the error (if any), the
committed database state, and the trace of events.  Transaction
semantics: all writes happen on a snapshot and reach the returned state
only at `Commit`; every error path rolls back, leaving the state
unchanged. -/
def migrateFile (env : Env) (name : String) (st : DBState) :
    Option String × DBState × List Ev :=
  if env.beginOk name = false then
    (some "begin failed", st, [])
  else if st.hasMigrationsTable = false then
    -- `SELECT COUNT(*) FROM migrations` fails: no such table
    (some "no such table: migrations", st, [.txBegin name, .txRollback name])
  else if st.records.count name ≠ 0 then
    -- already applied: return nil, deferred rollback is a no-op
    (none, st, [.txBegin name, .checkApplied name, .txRollback name])
  else
    match lookupFile env.files name with
    | none =>
      (some "file does not exist", st,
        [.txBegin name, .checkApplied name, .txRollback name])
    | some body =>
      match env.execSql body st.schema with
      | none =>
        (some "SQL logic error", st,
          [.txBegin name, .checkApplied name, .txRollback name])
      | some schema2 =>
        if env.insertOk name = false then
          (some "insert failed", st,
            [.txBegin name, .checkApplied name, .execBody name,
             .txRollback name])
        else if env.commitOk name = false then
          (some "commit failed", st,
            [.txBegin name, .checkApplied name, .execBody name,
             .insertRecord name, .printSuccess name, .txRollback name])
        else
          (none,
            { st with records := st.records ++ [name], schema := schema2 },
            [.txBegin name, .checkApplied name, .execBody name,
             .insertRecord name, .printSuccess name, .txCommit name])

/-- `fmt.Errorf("migration error: name=%q err=%w", name, err)`
(sqlite.go:112). -/
def wrapErr (name msg : String) : String :=
  "migration error: name=\"" ++ name ++ "\" err=" ++ msg

/-- The `for _, name := range names` loop of `migrate`
(sqlite.go:110-114): run each file in order, wrapping and returning the
first error. -/
def migrateLoop (env : Env) (names : List String) (st : DBState) :
    Option String × DBState × List Ev :=
  match names with
  | [] => (none, st, [])
  | name :: rest =>
    match migrateFile env name st with
    | (some e, st2, tr) => (some (wrapErr name e), st2, tr)
    | (none, st2, tr) =>
      let r := migrateLoop env rest st2
      (r.1, r.2.1, tr ++ r.2.2)

/-- `CREATE TABLE IF NOT EXISTS migrations (name TEXT PRIMARY KEY);`
(sqlite.go:99): idempotent bookkeeping-table bootstrap. -/
def bootstrapMigrationsTable (st : DBState) : DBState :=
  { st with hasMigrationsTable := true }

/-- Lexicographic comparison of character sequences, mirroring Go's
byte-wise string comparison (on valid UTF-8, byte-wise order of the
encodings coincides with codepoint-lexicographic order). -/
def lexLe : List Char → List Char → Bool
  | [], _ => true
  | _ :: _, [] => false
  | a :: as, b :: bs =>
    if a < b then true
    else if b < a then false
    else lexLe as bs

/-- Go's `a <= b` on strings, as used by `sort.Strings`. -/
def goStringLe (a b : String) : Prop := lexLe a.data b.data = true

instance : DecidableRel goStringLe := fun a b =>
  inferInstanceAs (Decidable (lexLe a.data b.data = true))

/-- Embedding of `migrate` (sqlite.go:97-116): bootstrap the
`migrations` table, sort the glob result (`sort.Strings(names)`), then
run the per-script loop.  `names` is the enumeration returned by
`fs.Glob`, in whatever order the filesystem yields it. -/
def migrate (env : Env) (names : List String) (st : DBState) :
    Option String × DBState × List Ev :=
  let st1 := bootstrapMigrationsTable st
  let sorted := List.insertionSort goStringLe names
  let r := migrateLoop env sorted st1
  (r.1, r.2.1, Ev.createTableIfAbsent :: r.2.2)

/-- The script names whose transactions were begun, in trace order. -/
def beginsOf : List Ev → List String
  | [] => []
  | Ev.txBegin n :: rest => n :: beginsOf rest
  | _ :: rest => beginsOf rest

/-- Pool bounds set by `New` (sqlite.go:36-39): `SetMaxOpenConns(25)`,
`SetMaxIdleConns(25)`, `SetConnMaxIdleTime(5*time.Minute)`,
`SetConnMaxLifetime(2*time.Hour)`. -/
structure PoolConfig where
  maxOpenConns : Nat
  maxIdleConns : Nat
  connMaxIdleTimeMinutes : Nat
  connMaxLifetimeHours : Nat
deriving Repr, DecidableEq

/-- The `Sqlite` struct (sqlite.go:20-25): the pool (with its bounds and
the pragmas applied on it, in order), the database state behind it, and
the cancellable background context.  `ctxCancelled`/`poolClosed` record
whether `cancel()` / `db.Close()` have run. -/
structure Sqlite where
  pool : PoolConfig
  pragmas : List String
  dbState : DBState
  ctxCancelled : Bool
  poolClosed : Bool
deriving Repr, DecidableEq

/-- Embedding of `Close` (sqlite.go:79-87).  The receiver is an
`Option Sqlite`: `none` is a nil `*Sqlite` (e.g. the handle from a
failed `New`).  `poolCloseErr` is the driver's result for
`db.db.Close()` on this call.  Returns the error and the handle's new
state. -/
def closeDb (poolCloseErr : Option String) (db : Option Sqlite) :
    Option String × Option Sqlite :=
  match db with
  | none => (none, none)
  | some h =>
    (poolCloseErr, some { h with ctxCancelled := true, poolClosed := true })

/-- Driver oracles for `New`: whether `sqlx.Connect` succeeds and
whether `Exec` of a given pragma string succeeds; `migNames` is the
`fs.Glob` enumeration of the embedded migration files. -/
structure NewEnv where
  connectOk : Bool
  pragmaOk : String → Bool
  migEnv : Env
  migNames : List String

deriving instance DecidableEq for Except

/-- The observable outcome of `New`: the returned value, whether the
pool was opened, and whether any cleanup (`db.Close()` on the pool, or
the background context's `cancel()`) ran before returning. -/
structure NewOutcome where
  result : Except String Sqlite
  dbStateAfter : DBState
  poolOpened : Bool
  poolClosed : Bool
  cancelCalled : Bool
deriving Repr, DecidableEq

/-- The pragma statements `New` executes, in source order
(sqlite.go:42-69), paired with the prefix of the `fmt.Errorf` wrapper
used when that `Exec` fails.  The last pragma is only attempted when
`os.Getenv("LITESTREAM_ACCESS_KEY")` is nonempty. -/
def pragmaScript (litestreamAccessKey : String) : List (String × String) :=
  [("PRAGMA journal_mode = wal;", "enable wal"),
   ("PRAGMA synchronous = NORMAL;", "foreign keys pragma"),
   ("PRAGMA foreign_keys = ON;", "foreign keys pragma"),
   ("PRAGMA busy_timeout = 5000;", "foreign keys pragma")] ++
  (if litestreamAccessKey ≠ "" then
    [("PRAGMA wal_autocheckpoint = 0;", "foreign keys pragma")]
   else [])

/-- Run the pragma statements in order; stop at the first failure with
its wrapped error message, otherwise return the applied list. -/
def runPragmas (ok : String → Bool) :
    List (String × String) → Except String (List String)
  | [] => .ok []
  | (p, label) :: rest =>
    if ok p = false then .error (label ++ ": exec failed")
    else
      match runPragmas ok rest with
      | .error e => .error e
      | .ok applied => .ok (p :: applied)

/-- Embedding of `New` (sqlite.go:27-76).  `litestreamAccessKey` is the
value of `os.Getenv("LITESTREAM_ACCESS_KEY")` in the ambient process
environment; `st0` is the database state behind the DSN.  No failure
path after a successful `sqlx.Connect` closes the pool or calls the
context's cancel function. -/
def newDb (env : NewEnv) (litestreamAccessKey : String) (dsn : String)
    (st0 : DBState) : NewOutcome :=
  if env.connectOk = false then
    { result := .error ("connect " ++ dsn ++ ": failed"), dbStateAfter := st0,
      poolOpened := false, poolClosed := false, cancelCalled := false }
  else
    match runPragmas env.pragmaOk (pragmaScript litestreamAccessKey) with
    | .error e =>
      { result := .error e, dbStateAfter := st0,
        poolOpened := true, poolClosed := false, cancelCalled := false }
    | .ok applied =>
      let r := migrate env.migEnv env.migNames st0
      match r.1 with
      | some e =>
        { result := .error ("migrate: " ++ e), dbStateAfter := r.2.1,
          poolOpened := true, poolClosed := false, cancelCalled := false }
      | none =>
        { result := .ok
            { pool :=
                { maxOpenConns := 25, maxIdleConns := 25,
                  connMaxIdleTimeMinutes := 5, connMaxLifetimeHours := 2 },
              pragmas := applied, dbState := r.2.1,
              ctxCancelled := false, poolClosed := false },
          dbStateAfter := r.2.1,
          poolOpened := true, poolClosed := false, cancelCalled := false }

/-! ### Concrete instances used to exercise the definitions -/

/-- A concrete oracle environment: the two example scripts, every
driver operation succeeds, and executing a body appends it to the
abstract schema. -/
def envW : Env :=
  { files := [("migration/0001_init.sql", "CREATE TABLE t(id INTEGER)"),
              ("migration/0002_add_col.sql",
               "ALTER TABLE t ADD COLUMN v TEXT")],
    beginOk := fun _ => true,
    execSql := fun b s => some (s ++ [b]),
    insertOk := fun _ => true,
    commitOk := fun _ => true }

/-- The empty database file before first start. -/
def st0 : DBState :=
  { hasMigrationsTable := false, records := [], schema := [] }

/-- `envW` with a failing `Commit`. -/
def envCommitFail : Env := { envW with commitOk := fun _ => false }

/-- `envW` where the second script's SQL body is invalid. -/
def envSqlFail : Env :=
  { envW with execSql := fun b s =>
      if b = "ALTER TABLE t ADD COLUMN v TEXT" then none
      else some (s ++ [b]) }

/-- Database state after `migrate envW ["migration/0001_init.sql"] st0`. -/
def st1W : DBState :=
  { hasMigrationsTable := true, records := ["migration/0001_init.sql"],
    schema := ["CREATE TABLE t(id INTEGER)"] }

/-- Trace of `migrate envW ["migration/0001_init.sql"] st0`. -/
def tr1W : List Ev :=
  [Ev.createTableIfAbsent, Ev.txBegin "migration/0001_init.sql",
   Ev.checkApplied "migration/0001_init.sql",
   Ev.execBody "migration/0001_init.sql",
   Ev.insertRecord "migration/0001_init.sql",
   Ev.printSuccess "migration/0001_init.sql",
   Ev.txCommit "migration/0001_init.sql"]

/-- A `New` oracle where every driver operation succeeds and there are
no embedded migration files. -/
def envAllOk : NewEnv :=
  { connectOk := true, pragmaOk := fun _ => true,
    migEnv := envW, migNames := [] }

/-- `envAllOk` where only the `synchronous` pragma fails. -/
def envSyncFail : NewEnv :=
  { envAllOk with pragmaOk := fun p => p != "PRAGMA synchronous = NORMAL;" }

/-- `envAllOk` where only the `foreign_keys` pragma fails. -/
def envFkFail : NewEnv :=
  { envAllOk with pragmaOk := fun p => p != "PRAGMA foreign_keys = ON;" }

/-- `envAllOk` where only the `busy_timeout` pragma fails. -/
def envBusyFail : NewEnv :=
  { envAllOk with pragmaOk := fun p => p != "PRAGMA busy_timeout = 5000;" }

/-- `envAllOk` where only the `wal_autocheckpoint` pragma fails. -/
def envAutoCkptFail : NewEnv :=
  { envAllOk with
    pragmaOk := fun p => p != "PRAGMA wal_autocheckpoint = 0;" }

/-- The handle `New` builds from `envAllOk` with a nonempty
`LITESTREAM_ACCESS_KEY`. -/
def handleW : Sqlite :=
  { pool := { maxOpenConns := 25, maxIdleConns := 25,
              connMaxIdleTimeMinutes := 5, connMaxLifetimeHours := 2 },
    pragmas := ["PRAGMA journal_mode = wal;", "PRAGMA synchronous = NORMAL;",
                "PRAGMA foreign_keys = ON;", "PRAGMA busy_timeout = 5000;",
                "PRAGMA wal_autocheckpoint = 0;"],
    dbState := { hasMigrationsTable := true, records := [], schema := [] },
    ctxCancelled := false, poolClosed := false }

/-! ### `goStringLe` is a total order -/

theorem lexLe_total : ∀ as bs : List Char,
    lexLe as bs = true ∨ lexLe bs as = true
  | [], _ => Or.inl rfl
  | _ :: _, [] => Or.inr rfl
  | a :: as, b :: bs => by
    by_cases h1 : a < b
    · exact Or.inl (by simp [lexLe, h1])
    · by_cases h2 : b < a
      · exact Or.inr (by simp [lexLe, h1, h2])
      · rcases lexLe_total as bs with h | h
        · exact Or.inl (by simp [lexLe, h1, h2, h])
        · exact Or.inr (by simp [lexLe, h1, h2, h])

theorem lexLe_trans : ∀ as bs cs : List Char,
    lexLe as bs = true → lexLe bs cs = true → lexLe as cs = true
  | [], _, _, _, _ => rfl
  | _ :: _, [], _, h1, _ => by simp [lexLe] at h1
  | _ :: _, _ :: _, [], _, h2 => by simp [lexLe] at h2
  | a :: as, b :: bs, c :: cs, h1, h2 => by
    by_cases hab : a < b
    · by_cases hbc : b < c
      · simp [lexLe, lt_trans hab hbc]
      · by_cases hcb : c < b
        · simp [lexLe, hbc, hcb] at h2
        · have hbc' : b = c := le_antisymm (not_lt.mp hcb) (not_lt.mp hbc)
          subst hbc'
          simp [lexLe, hab]
    · by_cases hba : b < a
      · simp [lexLe, hab, hba] at h1
      · have hab' : a = b := le_antisymm (not_lt.mp hba) (not_lt.mp hab)
        subst hab'
        have h1' : lexLe as bs = true := by
          simpa [lexLe, lt_irrefl] using h1
        by_cases hac : a < c
        · simp [lexLe, hac]
        · by_cases hca : c < a
          · simp [lexLe, hac, hca] at h2
          · have h2' : lexLe bs cs = true := by
              simpa [lexLe, hac, hca] using h2
            simp only [lexLe, if_neg hac, if_neg hca]
            exact lexLe_trans as bs cs h1' h2'

theorem lexLe_antisymm : ∀ as bs : List Char,
    lexLe as bs = true → lexLe bs as = true → as = bs
  | [], [], _, _ => rfl
  | [], _ :: _, _, h2 => by simp [lexLe] at h2
  | _ :: _, [], h1, _ => by simp [lexLe] at h1
  | a :: as, b :: bs, h1, h2 => by
    by_cases hab : a < b
    · simp [lexLe, hab, asymm hab] at h2
    · by_cases hba : b < a
      · simp [lexLe, hab, hba] at h1
      · have hab' : a = b := le_antisymm (not_lt.mp hba) (not_lt.mp hab)
        subst hab'
        have h1' : lexLe as bs = true := by
          simpa [lexLe, lt_irrefl] using h1
        have h2' : lexLe bs as = true := by
          simpa [lexLe, lt_irrefl] using h2
        rw [lexLe_antisymm as bs h1' h2']

instance : IsTotal String goStringLe :=
  ⟨fun a b => lexLe_total a.data b.data⟩

instance : IsTrans String goStringLe :=
  ⟨fun a b c => lexLe_trans a.data b.data c.data⟩

instance : IsAntisymm String goStringLe :=
  ⟨fun a b h1 h2 => String.ext (lexLe_antisymm a.data b.data h1 h2)⟩

/-! ### Basic facts about `migrateFile` -/

/-- Case analysis on `migrateFile`: it either fails (leaving the state
untouched and beginning at most one transaction), succeeds as a no-op
because the record already exists, or succeeds by executing the body and
inserting the record inside the one transaction. -/
theorem migrateFile_spec (env : Env) (n : String) (st : DBState) :
    (∃ e tr, migrateFile env n st = (some e, st, tr) ∧
      List.Sublist (beginsOf tr) [n] ∧ Ev.createTableIfAbsent ∉ tr) ∨
    (st.records.count n ≠ 0 ∧ env.beginOk n = true ∧
      migrateFile env n st =
        (none, st, [Ev.txBegin n, Ev.checkApplied n, Ev.txRollback n])) ∨
    (∃ body s2, st.records.count n = 0 ∧ env.beginOk n = true ∧
      lookupFile env.files n = some body ∧
      env.execSql body st.schema = some s2 ∧
      migrateFile env n st =
        (none, { st with records := st.records ++ [n], schema := s2 },
         [Ev.txBegin n, Ev.checkApplied n, Ev.execBody n, Ev.insertRecord n,
          Ev.printSuccess n, Ev.txCommit n])) := by
  by_cases hb : env.beginOk n = false
  · exact Or.inl ⟨"begin failed", [], by simp [migrateFile, hb],
      by simp [beginsOf], by simp⟩
  · by_cases ht : st.hasMigrationsTable = false
    · exact Or.inl ⟨"no such table: migrations", [Ev.txBegin n, Ev.txRollback n],
        by simp [migrateFile, hb, ht], by simp [beginsOf], by simp⟩
    · by_cases hc : st.records.count n ≠ 0
      · refine Or.inr (Or.inl ⟨hc, ?_, by simp [migrateFile, hb, ht, hc]⟩)
        simpa using hb
      · cases hf : lookupFile env.files n with
        | none =>
          exact Or.inl ⟨"file does not exist",
            [Ev.txBegin n, Ev.checkApplied n, Ev.txRollback n],
            by simp [migrateFile, hb, ht, hc, hf],
            by simp [beginsOf], by simp⟩
        | some body =>
          cases hx : env.execSql body st.schema with
          | none =>
            exact Or.inl ⟨"SQL logic error",
              [Ev.txBegin n, Ev.checkApplied n, Ev.txRollback n],
              by simp [migrateFile, hb, ht, hc, hf, hx],
              by simp [beginsOf], by simp⟩
          | some s2 =>
            by_cases hi : env.insertOk n = false
            · exact Or.inl ⟨"insert failed",
                [Ev.txBegin n, Ev.checkApplied n, Ev.execBody n, Ev.txRollback n],
                by simp [migrateFile, hb, ht, hc, hf, hx, hi],
                by simp [beginsOf], by simp⟩
            · by_cases hm : env.commitOk n = false
              · exact Or.inl ⟨"commit failed",
                  [Ev.txBegin n, Ev.checkApplied n, Ev.execBody n,
                   Ev.insertRecord n, Ev.printSuccess n, Ev.txRollback n],
                  by simp [migrateFile, hb, ht, hc, hf, hx, hi, hm],
                  by simp [beginsOf], by simp⟩
              · exact Or.inr (Or.inr ⟨body, s2, by simpa using hc,
                  by simpa using hb, rfl, hx,
                  by simp [migrateFile, hb, ht, hc, hf, hx, hi, hm]⟩)

/-- Every failing `migrateFile` leaves the committed state unchanged
(the transaction is rolled back). -/
theorem migrateFile_error_state (env : Env) (n : String) (st : DBState)
    (e : String) (h : (migrateFile env n st).1 = some e) :
    (migrateFile env n st).2.1 = st := by
  rcases migrateFile_spec env n st with ⟨e', tr, heq, _, _⟩ | ⟨_, _, heq⟩ | ⟨_, _, _, _, _, _, heq⟩ <;>
    rw [heq] <;> rw [heq] at h <;> simp_all

/-- A successful `migrateFile` began its transaction. -/
theorem migrateFile_none_beginOk (env : Env) (n : String) (st : DBState)
    (h : (migrateFile env n st).1 = none) : env.beginOk n = true := by
  by_cases hb : env.beginOk n = false
  · simp [migrateFile, hb] at h
  · simpa using hb

/-- `migrateFile` only ever appends to the record list. -/
theorem migrateFile_records (env : Env) (n : String) (st : DBState) :
    (migrateFile env n st).2.1.records = st.records ∨
    (migrateFile env n st).2.1.records = st.records ++ [n] := by
  rcases migrateFile_spec env n st with ⟨e', tr, heq, _, _⟩ | ⟨_, _, heq⟩ | ⟨_, _, _, _, _, _, heq⟩ <;>
    rw [heq] <;> simp

/-- `migrateFile` never touches the bookkeeping-table flag. -/
theorem migrateFile_table (env : Env) (n : String) (st : DBState) :
    (migrateFile env n st).2.1.hasMigrationsTable = st.hasMigrationsTable := by
  rcases migrateFile_spec env n st with ⟨e', tr, heq, _, _⟩ | ⟨_, _, heq⟩ | ⟨_, _, _, _, _, _, heq⟩ <;>
    rw [heq]

/-- After a successful `migrateFile n`, a record for `n` exists. -/
theorem migrateFile_none_mem (env : Env) (n : String) (st : DBState)
    (h : (migrateFile env n st).1 = none) :
    n ∈ (migrateFile env n st).2.1.records := by
  rcases migrateFile_spec env n st with ⟨e', tr, heq, _⟩ | ⟨hc, _, heq⟩ | ⟨_, _, _, _, _, _, heq⟩
  · rw [heq] at h; simp at h
  · rw [heq]
    exact List.count_pos_iff.mp (Nat.pos_of_ne_zero hc)
  · rw [heq]; simp

/-- The trace of one `migrateFile n` begins at most the one transaction
for `n`. -/
theorem migrateFile_beginsOf (env : Env) (n : String) (st : DBState) :
    List.Sublist (beginsOf (migrateFile env n st).2.2) [n] := by
  rcases migrateFile_spec env n st with ⟨e', tr, heq, hb, _⟩ | ⟨_, _, heq⟩ | ⟨_, _, _, _, _, _, heq⟩
  · rw [heq]; exact hb
  · rw [heq]; simp [beginsOf]
  · rw [heq]; simp [beginsOf]

/-- `migrateFile` never emits the bookkeeping-table bootstrap event. -/
theorem migrateFile_noCreate (env : Env) (n : String) (st : DBState) :
    Ev.createTableIfAbsent ∉ (migrateFile env n st).2.2 := by
  rcases migrateFile_spec env n st with ⟨e', tr, heq, _, hn⟩ | ⟨_, _, heq⟩ | ⟨_, _, _, _, _, _, heq⟩
  · rw [heq]; exact hn
  · rw [heq]; simp
  · rw [heq]; simp

/-- `beginsOf` distributes over trace concatenation. -/
theorem beginsOf_append : ∀ a b : List Ev,
    beginsOf (a ++ b) = beginsOf a ++ beginsOf b := by
  intro a b
  induction a with
  | nil => rfl
  | cons e rest ih => cases e <;> simp [beginsOf, ih]

/-! ### Facts about the migration loop -/

/-- The loop only ever appends to the record list. -/
theorem migrateLoop_records_mono (env : Env) (l : List String) (st : DBState) :
    ∃ d, (migrateLoop env l st).2.1.records = st.records ++ d := by
  induction l generalizing st with
  | nil => exact ⟨[], by simp [migrateLoop]⟩
  | cons n rest ih =>
    have hd0 : ∃ d0, (migrateFile env n st).2.1.records = st.records ++ d0 := by
      rcases migrateFile_records env n st with h | h
      · exact ⟨[], by simp [h]⟩
      · exact ⟨[n], h⟩
    rcases hd0 with ⟨d0, hd0⟩
    rcases hmf : migrateFile env n st with ⟨err, st2, tr⟩
    rw [hmf] at hd0
    cases err with
    | some e => exact ⟨d0, by simp only [migrateLoop, hmf]; exact hd0⟩
    | none =>
      rcases ih st2 with ⟨d1, hd1⟩
      refine ⟨d0 ++ d1, ?_⟩
      simp only [migrateLoop, hmf]
      have hd0' : st2.records = st.records ++ d0 := hd0
      rw [hd1, hd0', List.append_assoc]

/-- Records present before the loop are still present after it. -/
theorem migrateLoop_records_sub (env : Env) (l : List String) (st : DBState) :
    st.records ⊆ (migrateLoop env l st).2.1.records := by
  rcases migrateLoop_records_mono env l st with ⟨d, hd⟩
  rw [hd]
  exact List.subset_append_left _ _

/-- The loop never touches the bookkeeping-table flag. -/
theorem migrateLoop_table (env : Env) (l : List String) (st : DBState) :
    (migrateLoop env l st).2.1.hasMigrationsTable = st.hasMigrationsTable := by
  induction l generalizing st with
  | nil => simp [migrateLoop]
  | cons n rest ih =>
    have htab := migrateFile_table env n st
    rcases hmf : migrateFile env n st with ⟨err, st2, tr⟩
    rw [hmf] at htab
    cases err with
    | some e => simpa only [migrateLoop, hmf] using htab
    | none =>
      simp only [migrateLoop, hmf]
      rw [ih st2]
      exact htab

/-- After a successful loop, every listed script has a record. -/
theorem migrateLoop_none_mem (env : Env) (l : List String) (st : DBState)
    (h : (migrateLoop env l st).1 = none) :
    ∀ n ∈ l, n ∈ (migrateLoop env l st).2.1.records := by
  induction l generalizing st with
  | nil => simp
  | cons m rest ih =>
    rcases hmf : migrateFile env m st with ⟨err, st2, tr⟩
    cases err with
    | some e =>
      simp only [migrateLoop, hmf] at h
      simp at h
    | none =>
      intro n hn
      have heq : (migrateLoop env (m :: rest) st).2.1 =
          (migrateLoop env rest st2).2.1 := by
        simp only [migrateLoop, hmf]
      rcases List.mem_cons.mp hn with rfl | hn'
      · have h1 : n ∈ st2.records := by
          have h2 := migrateFile_none_mem env n st (by rw [hmf])
          rwa [hmf] at h2
        rw [heq]
        exact migrateLoop_records_sub env rest st2 h1
      · have hrec : (migrateLoop env rest st2).1 = none := by
          simpa only [migrateLoop, hmf] using h
        rw [heq]
        exact ih st2 hrec n hn'

/-- A successful loop began every listed script's transaction. -/
theorem migrateLoop_none_beginOk (env : Env) (l : List String) (st : DBState)
    (h : (migrateLoop env l st).1 = none) :
    ∀ n ∈ l, env.beginOk n = true := by
  induction l generalizing st with
  | nil => simp
  | cons m rest ih =>
    rcases hmf : migrateFile env m st with ⟨err, st2, tr⟩
    cases err with
    | some e =>
      simp only [migrateLoop, hmf] at h
      simp at h
    | none =>
      intro n hn
      rcases List.mem_cons.mp hn with rfl | hn'
      · have h2 := migrateFile_none_beginOk env n st (by rw [hmf])
        exact h2
      · have hrec : (migrateLoop env rest st2).1 = none := by
          simpa only [migrateLoop, hmf] using h
        exact ih st2 hrec n hn'

/-- The loop begins transactions only for listed scripts, in list
order. -/
theorem migrateLoop_beginsOf (env : Env) (l : List String) (st : DBState) :
    List.Sublist (beginsOf (migrateLoop env l st).2.2) l := by
  induction l generalizing st with
  | nil => simp [migrateLoop, beginsOf]
  | cons n rest ih =>
    have hsub := migrateFile_beginsOf env n st
    rcases hmf : migrateFile env n st with ⟨err, st2, tr⟩
    rw [hmf] at hsub
    cases err with
    | some e =>
      simp only [migrateLoop, hmf]
      refine hsub.trans ?_
      simpa using List.cons_sublist_cons.mpr (List.nil_sublist rest)
    | none =>
      simp only [migrateLoop, hmf, beginsOf_append]
      have : [n] ++ rest = n :: rest := by simp
      rw [← this]
      exact List.Sublist.append hsub (ih st2)

/-- If the loop fails, it decomposes as: a successful initial segment,
then the failing script, whose transaction rolled back (the final state
is exactly the state before the failing script), the error wraps the
failing script's name, and no transaction is begun for any script after
the failing one. -/
theorem migrateLoop_error (env : Env) (l : List String) (st : DBState)
    (e : String) (h : (migrateLoop env l st).1 = some e) :
    ∃ pre n suf msg,
      l = pre ++ n :: suf ∧
      (migrateLoop env pre st).1 = none ∧
      (migrateFile env n (migrateLoop env pre st).2.1).1 = some msg ∧
      e = wrapErr n msg ∧
      (migrateLoop env l st).2.1 = (migrateLoop env pre st).2.1 ∧
      List.Sublist (beginsOf (migrateLoop env l st).2.2) (pre ++ [n]) := by
  induction l generalizing st with
  | nil => simp [migrateLoop] at h
  | cons m rest ih =>
    rcases hmf : migrateFile env m st with ⟨err, st2, tr⟩
    cases err with
    | some e0 =>
      have hes : st2 = st := by
        have h0 : (migrateFile env m st).1 = some e0 := by rw [hmf]
        have h1 := migrateFile_error_state env m st e0 h0
        rw [hmf] at h1
        exact h1
      refine ⟨[], m, rest, e0, rfl, by simp [migrateLoop], ?_, ?_, ?_, ?_⟩
      · simp only [migrateLoop]
        rw [hmf]
      · have h2 : some (wrapErr m e0) = some e := by
          simpa only [migrateLoop, hmf] using h
        exact (Option.some.inj h2).symm
      · simp only [migrateLoop, hmf]
        exact hes
      · simp only [migrateLoop, hmf]
        have h3 := migrateFile_beginsOf env m st
        rw [hmf] at h3
        simpa using h3
    | none =>
      have h' : (migrateLoop env rest st2).1 = some e := by
        simpa only [migrateLoop, hmf] using h
      rcases ih st2 h' with ⟨pre, n, suf, msg, hl, hpre, hfail, hwrap, hstate, hbeg⟩
      have hcons1 : (migrateLoop env (m :: pre) st).1 =
          (migrateLoop env pre st2).1 := by
        simp only [migrateLoop, hmf]
      have hcons2 : (migrateLoop env (m :: pre) st).2.1 =
          (migrateLoop env pre st2).2.1 := by
        simp only [migrateLoop, hmf]
      refine ⟨m :: pre, n, suf, msg, by simp [hl], ?_, ?_, hwrap, ?_, ?_⟩
      · rw [hcons1]
        exact hpre
      · rw [hcons2]
        exact hfail
      · have h1 : (migrateLoop env (m :: rest) st).2.1 =
            (migrateLoop env rest st2).2.1 := by
          simp only [migrateLoop, hmf]
        rw [h1, hcons2]
        exact hstate
      · have h1 : (migrateLoop env (m :: rest) st).2.2 =
            tr ++ (migrateLoop env rest st2).2.2 := by
          simp only [migrateLoop, hmf]
        have hb : List.Sublist (beginsOf tr) [m] := by
          have h3 := migrateFile_beginsOf env m st
          rwa [hmf] at h3
        have h4 : (m :: pre) ++ [n] = [m] ++ (pre ++ [n]) := by simp
        rw [h1, beginsOf_append, h4]
        exact List.Sublist.append hb hbeg

/-- A run over scripts that all already have records is a pure no-op:
it succeeds, leaves the state unchanged, and neither executes a body
nor inserts a record. -/
theorem migrateLoop_applied (env : Env) (l : List String) (st : DBState)
    (hT : st.hasMigrationsTable = true)
    (hmem : ∀ n ∈ l, n ∈ st.records)
    (hbeg : ∀ n ∈ l, env.beginOk n = true) :
    (migrateLoop env l st).1 = none ∧ (migrateLoop env l st).2.1 = st ∧
    ∀ n : String, Ev.execBody n ∉ (migrateLoop env l st).2.2 ∧
      Ev.insertRecord n ∉ (migrateLoop env l st).2.2 := by
  revert hmem hbeg
  induction l with
  | nil =>
    intro _ _
    simp [migrateLoop]
  | cons m rest ih =>
    intro hmem hbeg
    have hmf : migrateFile env m st =
        (none, st, [Ev.txBegin m, Ev.checkApplied m, Ev.txRollback m]) := by
      have hb : env.beginOk m = true := hbeg m (by simp)
      have hc : st.records.count m ≠ 0 := by
        intro h0
        exact (List.count_eq_zero.mp h0) (hmem m (by simp))
      simp [migrateFile, hb, hT, hc]
    have ih' := ih (fun n hn => hmem n (List.mem_cons_of_mem _ hn))
      (fun n hn => hbeg n (List.mem_cons_of_mem _ hn))
    refine ⟨?_, ?_, ?_⟩
    · simp only [migrateLoop, hmf]
      exact ih'.1
    · simp only [migrateLoop, hmf]
      exact ih'.2.1
    · intro n
      have h1 := (ih'.2.2 n).1
      have h2 := (ih'.2.2 n).2
      constructor
      · intro hm
        simp only [migrateLoop, hmf, List.mem_append] at hm
        rcases hm with hA | hB
        · simp at hA
        · exact h1 hB
      · intro hm
        simp only [migrateLoop, hmf, List.mem_append] at hm
        rcases hm with hA | hB
        · simp at hA
        · exact h2 hB

/-- Any record that appears during the loop was put there by a
transaction that executed the script's body and committed: the trace
contains both events for that name. -/
theorem migrateLoop_new_record (env : Env) (l : List String) (st : DBState)
    (m : String) (hnot : m ∉ st.records)
    (hin : m ∈ (migrateLoop env l st).2.1.records) :
    Ev.execBody m ∈ (migrateLoop env l st).2.2 ∧
    Ev.txCommit m ∈ (migrateLoop env l st).2.2 := by
  induction l generalizing st with
  | nil =>
    simp only [migrateLoop] at hin
    exact absurd hin hnot
  | cons n rest ih =>
    rcases migrateFile_spec env n st with ⟨e, tr, heq, _, _⟩ |
      ⟨hc, hb, heq⟩ | ⟨body, s2, hc, hb, hf, hx, heq⟩
    · simp only [migrateLoop, heq] at hin
      exact absurd hin hnot
    · simp only [migrateLoop, heq] at hin ⊢
      have h1 := ih st hnot hin
      simp only [List.mem_append]
      exact ⟨Or.inr h1.1, Or.inr h1.2⟩
    · by_cases hmn : m = n
      · subst hmn
        simp only [migrateLoop, heq, List.mem_append]
        constructor
        · exact Or.inl (by simp)
        · exact Or.inl (by simp)
      · have hnot2 : m ∉ st.records ++ [n] := by
          intro hm
          rcases List.mem_append.mp hm with hm | hm
          · exact hnot hm
          · exact hmn (List.mem_singleton.mp hm)
        simp only [migrateLoop, heq] at hin ⊢
        have h1 := ih _ hnot2 hin
        simp only [List.mem_append]
        exact ⟨Or.inr h1.1, Or.inr h1.2⟩

/-- The loop never emits the bookkeeping-table bootstrap event. -/
theorem migrateLoop_noCreate (env : Env) (l : List String) (st : DBState) :
    Ev.createTableIfAbsent ∉ (migrateLoop env l st).2.2 := by
  induction l generalizing st with
  | nil => simp [migrateLoop]
  | cons n rest ih =>
    have hnc := migrateFile_noCreate env n st
    rcases hmf : migrateFile env n st with ⟨err, st2, tr⟩
    rw [hmf] at hnc
    cases err with
    | some e => simpa only [migrateLoop, hmf] using hnc
    | none =>
      simp only [migrateLoop, hmf, List.mem_append]
      push_neg
      exact ⟨hnc, ih st2⟩



/-! ### Claim theorems -/

/-- C1: a `MigrationRecord` for a name exists only if that script's SQL
body has fully committed.  Per call, when no record exists yet,
`migrateFile` produces a record only by executing the body and
inserting the record inside the one transaction, committing both
atomically; and any record that appears during a whole `migrate` run
has matching body-execution and commit events in its trace. -/
theorem migrate_record_implies_committed (env : Env) (name : String)
    (st : DBState) (names : List String) (h : name ∉ st.records) :
    (name ∈ (migrateFile env name st).2.1.records →
      ∃ body s2, lookupFile env.files name = some body ∧
        env.execSql body st.schema = some s2 ∧
        migrateFile env name st =
          (none, { st with records := st.records ++ [name], schema := s2 },
           [Ev.txBegin name, Ev.checkApplied name, Ev.execBody name,
            Ev.insertRecord name, Ev.printSuccess name, Ev.txCommit name])) ∧
    (name ∈ (migrate env names st).2.1.records →
      Ev.execBody name ∈ (migrate env names st).2.2 ∧
      Ev.txCommit name ∈ (migrate env names st).2.2) := by
  constructor
  · intro hin
    rcases migrateFile_spec env name st with ⟨e, tr, heq, _, _⟩ |
      ⟨hc, _, heq⟩ | ⟨body, s2, hc, hb, hf, hx, heq⟩
    · rw [heq] at hin
      exact absurd hin h
    · exact absurd (List.count_pos_iff.mp (Nat.pos_of_ne_zero hc)) h
    · exact ⟨body, s2, hf, hx, heq⟩
  · intro hin
    have hm1 : (migrate env names st).2.1 =
        (migrateLoop env (List.insertionSort goStringLe names)
          (bootstrapMigrationsTable st)).2.1 := rfl
    have hm2 : (migrate env names st).2.2 =
        Ev.createTableIfAbsent ::
        (migrateLoop env (List.insertionSort goStringLe names)
          (bootstrapMigrationsTable st)).2.2 := rfl
    have h0 : name ∉ (bootstrapMigrationsTable st).records := h
    have h1 := migrateLoop_new_record env
      (List.insertionSort goStringLe names) (bootstrapMigrationsTable st)
      name h0 (hm1 ▸ hin)
    rw [hm2]
    exact ⟨List.mem_cons_of_mem _ h1.1, List.mem_cons_of_mem _ h1.2⟩

/-- Witness for C1 at a concrete input. -/
theorem migrate_record_implies_committed_witness :
    Ev.execBody "migration/0001_init.sql" ∈
      (migrate envW ["migration/0001_init.sql"] st0).2.2 ∧
    Ev.txCommit "migration/0001_init.sql" ∈
      (migrate envW ["migration/0001_init.sql"] st0).2.2 :=
  (migrate_record_implies_committed envW "migration/0001_init.sql" st0
    ["migration/0001_init.sql"] (by decide)).2 (by decide)

/-- C7: `Close` is total and idempotent: on a nil handle (such as the
one a failed `New` leaves the caller with) it is a no-op returning
success; on a live handle it cancels the background context, closes the
pool and returns the pool's close result; and a second call leaves the
handle state unchanged. -/
theorem close_idempotent_safe (perr perr2 : Option String) (h : Sqlite) :
    closeDb perr none = (none, none) ∧
    (closeDb perr (some h)).1 = perr ∧
    (closeDb perr (some h)).2 =
      some { h with ctxCancelled := true, poolClosed := true } ∧
    (closeDb perr2 (closeDb perr (some h)).2).2 = (closeDb perr (some h)).2 :=
  ⟨rfl, rfl, rfl, rfl⟩

/-- C8: the `migrations` bookkeeping table is created by an idempotent
create-if-absent bootstrap that runs outside any per-script transaction
and strictly before the per-script loop: it is the first trace event
and never occurs inside the loop's trace, and on a state that already
has the table the bootstrap changes nothing. -/
theorem migrate_bootstrap_phases (env : Env) (names : List String)
    (st : DBState) :
    (∃ tr, (migrate env names st).2.2 = Ev.createTableIfAbsent :: tr ∧
      Ev.createTableIfAbsent ∉ tr) ∧
    (bootstrapMigrationsTable st).hasMigrationsTable = true ∧
    (st.hasMigrationsTable = true → bootstrapMigrationsTable st = st) := by
  refine ⟨⟨_, rfl, ?_⟩, rfl, ?_⟩
  · exact migrateLoop_noCreate env _ _
  · intro hT
    cases st
    simp_all [bootstrapMigrationsTable]

/-- Witness for C8 at a concrete input. -/
theorem migrate_bootstrap_phases_witness :
    bootstrapMigrationsTable
      { hasMigrationsTable := true, records := [], schema := [] } =
      { hasMigrationsTable := true, records := [], schema := [] } :=
  (migrate_bootstrap_phases envW []
    { hasMigrationsTable := true, records := [], schema := [] }).2.2 rfl

/-- C10: for a newly applied script, `migrateFile` emits the success
message strictly before committing (it is the fifth trace event, the
commit the sixth); when the commit fails, the success message has
nevertheless been emitted even though `migrateFile` returns an error
and the transaction rolls back without committing the effects. -/
theorem migrateFile_message_before_commit (env : Env) (name : String)
    (st : DBState)
    (hb : env.beginOk name = true) (ht : st.hasMigrationsTable = true)
    (hn : st.records.count name = 0)
    (body : String) (hf : lookupFile env.files name = some body)
    (s2 : List String) (hx : env.execSql body st.schema = some s2)
    (hi : env.insertOk name = true) :
    (env.commitOk name = true →
      (migrateFile env name st).2.2 =
        [Ev.txBegin name, Ev.checkApplied name, Ev.execBody name,
         Ev.insertRecord name, Ev.printSuccess name, Ev.txCommit name]) ∧
    (env.commitOk name = false →
      (migrateFile env name st).1 = some "commit failed" ∧
      (migrateFile env name st).2.1 = st ∧
      Ev.printSuccess name ∈ (migrateFile env name st).2.2 ∧
      Ev.txCommit name ∉ (migrateFile env name st).2.2) := by
  constructor
  · intro hcm
    simp [migrateFile, hb, ht, hn, hf, hx, hi, hcm]
  · intro hcm
    refine ⟨?_, ?_, ?_, ?_⟩ <;> simp [migrateFile, hb, ht, hn, hf, hx, hi, hcm]

/-- Witness for C10 at a concrete input. -/
theorem migrateFile_message_before_commit_witness :
    Ev.printSuccess "migration/0001_init.sql" ∈
      (migrateFile envCommitFail "migration/0001_init.sql"
        { hasMigrationsTable := true, records := [], schema := [] }).2.2 ∧
    Ev.txCommit "migration/0001_init.sql" ∉
      (migrateFile envCommitFail "migration/0001_init.sql"
        { hasMigrationsTable := true, records := [], schema := [] }).2.2 := by
  have h := (migrateFile_message_before_commit envCommitFail
    "migration/0001_init.sql"
    { hasMigrationsTable := true, records := [], schema := [] }
    rfl rfl rfl "CREATE TABLE t(id INTEGER)" (by decide)
    ["CREATE TABLE t(id INTEGER)"] rfl rfl).2 rfl
  exact ⟨h.2.2.1, h.2.2.2⟩

/-- C2: if any per-script step fails, the failing script's transaction
is rolled back — the final state is exactly the state reached after the
last successful script, so no record and no partial effect of the
failing script remains and the earlier scripts' records are still
present — the run's error wraps (hence contains) the failing script's
name, and no transaction is begun for any lexicographically later
script. -/
theorem migrate_failure_atomic_abort (env : Env) (names : List String)
    (st : DBState) (e : String) (h : (migrate env names st).1 = some e) :
    ∃ pre failing suf msg,
      List.insertionSort goStringLe names = pre ++ failing :: suf ∧
      (migrateLoop env pre (bootstrapMigrationsTable st)).1 = none ∧
      (migrateFile env failing
        (migrateLoop env pre (bootstrapMigrationsTable st)).2.1).1 =
        some msg ∧
      (migrateFile env failing
        (migrateLoop env pre (bootstrapMigrationsTable st)).2.1).2.1 =
        (migrateLoop env pre (bootstrapMigrationsTable st)).2.1 ∧
      e = wrapErr failing msg ∧
      (∃ a b, e = a ++ (failing ++ b)) ∧
      (migrate env names st).2.1 =
        (migrateLoop env pre (bootstrapMigrationsTable st)).2.1 ∧
      (∀ n ∈ pre, n ∈ (migrate env names st).2.1.records) ∧
      List.Sublist (beginsOf (migrate env names st).2.2)
        (pre ++ [failing]) := by
  have hm1 : (migrate env names st).1 =
      (migrateLoop env (List.insertionSort goStringLe names)
        (bootstrapMigrationsTable st)).1 := rfl
  rw [hm1] at h
  rcases migrateLoop_error env _ _ e h with
    ⟨pre, n, suf, msg, hl, hpre, hfail, hwrap, hstate, hbeg⟩
  have hstate' : (migrate env names st).2.1 =
      (migrateLoop env pre (bootstrapMigrationsTable st)).2.1 := hstate
  refine ⟨pre, n, suf, msg, hl, hpre, hfail, ?_, hwrap, ?_, hstate', ?_, ?_⟩
  · exact migrateFile_error_state env n _ msg hfail
  · refine ⟨"migration error: name=\"", "\" err=" ++ msg, ?_⟩
    rw [hwrap]
    simp [wrapErr, String.append_assoc]
  · intro n2 hn2
    rw [hstate']
    exact migrateLoop_none_mem env pre (bootstrapMigrationsTable st) hpre
      n2 hn2
  · exact hbeg

/-- Witness for C2 at a concrete input: the second script's SQL body is
invalid. -/
theorem migrate_failure_atomic_abort_witness :
    ∃ pre failing suf msg,
      List.insertionSort goStringLe
        ["migration/0001_init.sql", "migration/0002_add_col.sql"] =
        pre ++ failing :: suf ∧
      (migrateLoop envSqlFail pre (bootstrapMigrationsTable st0)).1 = none ∧
      (migrateFile envSqlFail failing
        (migrateLoop envSqlFail pre (bootstrapMigrationsTable st0)).2.1).1 =
        some msg ∧
      (migrateFile envSqlFail failing
        (migrateLoop envSqlFail pre (bootstrapMigrationsTable st0)).2.1).2.1 =
        (migrateLoop envSqlFail pre (bootstrapMigrationsTable st0)).2.1 ∧
      wrapErr "migration/0002_add_col.sql" "SQL logic error" =
        wrapErr failing msg ∧
      (∃ a b, wrapErr "migration/0002_add_col.sql" "SQL logic error" =
        a ++ (failing ++ b)) ∧
      (migrate envSqlFail
        ["migration/0001_init.sql", "migration/0002_add_col.sql"] st0).2.1 =
        (migrateLoop envSqlFail pre (bootstrapMigrationsTable st0)).2.1 ∧
      (∀ n ∈ pre, n ∈ (migrate envSqlFail
        ["migration/0001_init.sql", "migration/0002_add_col.sql"]
        st0).2.1.records) ∧
      List.Sublist (beginsOf (migrate envSqlFail
        ["migration/0001_init.sql", "migration/0002_add_col.sql"]
        st0).2.2) (pre ++ [failing]) :=
  migrate_failure_atomic_abort envSqlFail
    ["migration/0001_init.sql", "migration/0002_add_col.sql"] st0
    (wrapErr "migration/0002_add_col.sql" "SQL logic error") (by decide)

/-- C3: the engine applies the scripts in strictly ascending byte-wise
lexicographic order of name, regardless of the order in which the
embedded source enumerates them: permuted enumerations give identical
runs, and the sequence of names whose transactions are begun is
strictly increasing. -/
theorem migrate_sorted_order (env : Env) (names names2 : List String)
    (st : DBState) (hperm : names.Perm names2) (hnd : names.Nodup) :
    migrate env names st = migrate env names2 st ∧
    List.Pairwise (fun a b => goStringLe a b ∧ a ≠ b)
      (beginsOf (migrate env names st).2.2) := by
  have hsorteq : List.insertionSort goStringLe names =
      List.insertionSort goStringLe names2 := by
    refine List.eq_of_perm_of_sorted (r := goStringLe) ?_ ?_ ?_
    · exact (List.perm_insertionSort _ names).trans
        (hperm.trans (List.perm_insertionSort _ names2).symm)
    · exact List.sorted_insertionSort _ names
    · exact List.sorted_insertionSort _ names2
  constructor
  · simp only [migrate, hsorteq]
  · have hsorted := List.sorted_insertionSort goStringLe names
    have hndS : (List.insertionSort goStringLe names).Nodup :=
      ((List.perm_insertionSort goStringLe names).nodup_iff).mpr hnd
    have hsub : List.Sublist (beginsOf (migrate env names st).2.2)
        (List.insertionSort goStringLe names) :=
      migrateLoop_beginsOf env (List.insertionSort goStringLe names)
        (bootstrapMigrationsTable st)
    have hle : List.Pairwise goStringLe
        (beginsOf (migrate env names st).2.2) :=
      List.Pairwise.sublist hsub hsorted
    have hne : List.Pairwise (· ≠ ·)
        (beginsOf (migrate env names st).2.2) := hndS.sublist hsub
    exact hle.imp₂ (fun a b h1 h2 => ⟨h1, h2⟩) hne

/-- Witness for C3 at a concrete input: two enumeration orders of the
same scripts. -/
theorem migrate_sorted_order_witness :
    migrate envW
      ["migration/0002_add_col.sql", "migration/0001_init.sql"] st0 =
    migrate envW
      ["migration/0001_init.sql", "migration/0002_add_col.sql"] st0 :=
  (migrate_sorted_order envW
    ["migration/0002_add_col.sql", "migration/0001_init.sql"]
    ["migration/0001_init.sql", "migration/0002_add_col.sql"]
    st0 (by decide) (by decide)).1

/-- C4: `migrate` is idempotent — after a successful run, a second run
over the same scripts succeeds, leaves the database state exactly as it
was, executes no script body and inserts no record. -/
theorem migrate_idempotent (env : Env) (names : List String)
    (st st1 : DBState) (tr1 : List Ev)
    (h : migrate env names st = (none, st1, tr1)) :
    (migrate env names st1).1 = none ∧
    (migrate env names st1).2.1 = st1 ∧
    ∀ n : String, Ev.execBody n ∉ (migrate env names st1).2.2 ∧
      Ev.insertRecord n ∉ (migrate env names st1).2.2 := by
  have hln : (migrateLoop env (List.insertionSort goStringLe names)
      (bootstrapMigrationsTable st)).1 = none := by
    have h0 : (migrate env names st).1 = none := by rw [h]
    exact h0
  have hst1 : (migrateLoop env (List.insertionSort goStringLe names)
      (bootstrapMigrationsTable st)).2.1 = st1 := by
    have h0 : (migrate env names st).2.1 = st1 := by rw [h]
    exact h0
  have htab : st1.hasMigrationsTable = true := by
    rw [← hst1, migrateLoop_table]
    rfl
  have hmem : ∀ n ∈ List.insertionSort goStringLe names,
      n ∈ st1.records := by
    intro n hn
    rw [← hst1]
    exact migrateLoop_none_mem env _ _ hln n hn
  have hbeg : ∀ n ∈ List.insertionSort goStringLe names,
      env.beginOk n = true :=
    migrateLoop_none_beginOk env _ _ hln
  have hboot : bootstrapMigrationsTable st1 = st1 := by
    cases st1
    simp_all [bootstrapMigrationsTable]
  have happ := migrateLoop_applied env
    (List.insertionSort goStringLe names) st1 htab hmem hbeg
  have e1 : (migrate env names st1).1 =
      (migrateLoop env (List.insertionSort goStringLe names)
        (bootstrapMigrationsTable st1)).1 := rfl
  have e2 : (migrate env names st1).2.1 =
      (migrateLoop env (List.insertionSort goStringLe names)
        (bootstrapMigrationsTable st1)).2.1 := rfl
  have e3 : (migrate env names st1).2.2 =
      Ev.createTableIfAbsent ::
      (migrateLoop env (List.insertionSort goStringLe names)
        (bootstrapMigrationsTable st1)).2.2 := rfl
  rw [hboot] at e1 e2 e3
  refine ⟨?_, ?_, ?_⟩
  · rw [e1]
    exact happ.1
  · rw [e2]
    exact happ.2.1
  · intro n
    constructor
    · intro hmm
      rw [e3] at hmm
      rcases List.mem_cons.mp hmm with h' | h'
      · exact Ev.noConfusion h'
      · exact (happ.2.2 n).1 h'
    · intro hmm
      rw [e3] at hmm
      rcases List.mem_cons.mp hmm with h' | h'
      · exact Ev.noConfusion h'
      · exact (happ.2.2 n).2 h'

/-- Witness for C4 at a concrete input. -/
theorem migrate_idempotent_witness :
    (migrate envW ["migration/0001_init.sql"] st1W).1 = none ∧
    (migrate envW ["migration/0001_init.sql"] st1W).2.1 = st1W ∧
    Ev.execBody "migration/0001_init.sql" ∉
      (migrate envW ["migration/0001_init.sql"] st1W).2.2 := by
  have h := migrate_idempotent envW ["migration/0001_init.sql"] st0 st1W
    tr1W (by decide)
  exact ⟨h.1, h.2.1, (h.2.2 "migration/0001_init.sql").1⟩

/-- When every pragma `Exec` succeeds, `runPragmas` applies exactly the
listed pragma statements, in order. -/
theorem runPragmas_ok (ok : String → Bool) (h : ∀ p, ok p = true) :
    ∀ l : List (String × String),
      runPragmas ok l = .ok (l.map Prod.fst) := by
  intro l
  induction l with
  | nil => rfl
  | cons pr rest ih =>
    rcases pr with ⟨p, label⟩
    simp [runPragmas, h p, ih]

/-- C5 (code bug, sqlite.go:48-68): the error wrappers for the
`synchronous`, `busy_timeout` and `wal_autocheckpoint` pragmas all read
`foreign keys pragma`, so when one of those pragmas fails the returned
error does not identify the failing setting — it is literally
indistinguishable from a failure of the `foreign_keys` pragma itself.
(Only the journal-mode pragma's wrapper, `enable wal`, names its own
setting.) -/
theorem new_pragma_error_mislabel :
    (newDb envSyncFail "" "data/example.db" st0).result =
      Except.error "foreign keys pragma: exec failed" ∧
    (newDb envBusyFail "" "data/example.db" st0).result =
      Except.error "foreign keys pragma: exec failed" ∧
    (newDb envAutoCkptFail "key" "data/example.db" st0).result =
      Except.error "foreign keys pragma: exec failed" ∧
    (newDb envFkFail "" "data/example.db" st0).result =
      Except.error "foreign keys pragma: exec failed" ∧
    (newDb envSyncFail "" "data/example.db" st0).result =
      (newDb envFkFail "" "data/example.db" st0).result :=
  ⟨by decide, by decide, by decide, by decide, by decide⟩

/-- C6 is false on the code: `New` reads
`os.Getenv("LITESTREAM_ACCESS_KEY")` directly (sqlite.go:65), so two
runs with identical explicit inputs and driver behaviour but different
ambient environments produce different results — here one applies the
`wal_autocheckpoint = 0` pragma and the other does not. -/
theorem new_env_dependence_counterexample :
    newDb envAllOk "" "data/example.db" st0 ≠
    newDb envAllOk "some-key" "data/example.db" st0 := by decide

/-- C6 (amended): the construction's behaviour is a function of the DSN
and of the ambient `LITESTREAM_ACCESS_KEY` environment value, which the
core reads directly (there is no replication flag in any config): on a
successful construction, automatic checkpointing is disabled — the
`wal_autocheckpoint = 0` pragma was applied — iff that environment
value is nonempty. -/
theorem new_checkpoint_iff_litestream (env : NewEnv) (key dsn : String)
    (st : DBState) (hok : ∀ p, env.pragmaOk p = true) (hdl : Sqlite)
    (hres : (newDb env key dsn st).result = Except.ok hdl) :
    ("PRAGMA wal_autocheckpoint = 0;" ∈ hdl.pragmas ↔ key ≠ "") := by
  by_cases hc : env.connectOk = false
  · simp [newDb, hc] at hres
  · have hr := runPragmas_ok env.pragmaOk hok (pragmaScript key)
    cases hm : (migrate env.migEnv env.migNames st).1 with
    | some e => simp [newDb, hc, hr, hm] at hres
    | none =>
      simp only [newDb, hc, if_false, hr, hm] at hres
      have hprag : hdl.pragmas = (pragmaScript key).map Prod.fst := by
        have h2 := congrArg Sqlite.pragmas (Except.ok.inj hres)
        exact h2.symm
      rw [hprag]
      by_cases hk : key = ""
      · subst hk
        decide
      · simp [pragmaScript, hk]

/-- Witness for the amended C6 at a concrete input. -/
theorem new_checkpoint_iff_litestream_witness :
    "PRAGMA wal_autocheckpoint = 0;" ∈ handleW.pragmas ↔
      ("k" : String) ≠ "" :=
  new_checkpoint_iff_litestream envAllOk "k" "data/example.db" st0
    (fun _ => rfl) handleW (by decide)

/-- C9: every failure of `New` after the pool was opened (a pragma or
migration failure) returns an error while leaving the pool un-closed
and the background context's cancel function uninvoked — no error path
after `sqlx.Connect` cleans up the already-created resources. -/
theorem new_failure_leaks_pool (env : NewEnv) (key dsn : String)
    (st : DBState) (e : String)
    (hc : env.connectOk = true)
    (he : (newDb env key dsn st).result = Except.error e) :
    (newDb env key dsn st).poolOpened = true ∧
    (newDb env key dsn st).poolClosed = false ∧
    (newDb env key dsn st).cancelCalled = false := by
  cases hr : runPragmas env.pragmaOk (pragmaScript key) with
  | error e2 => refine ⟨?_, ?_, ?_⟩ <;> simp [newDb, hc, hr]
  | ok applied =>
    cases hm : (migrate env.migEnv env.migNames st).1 with
    | some e2 => refine ⟨?_, ?_, ?_⟩ <;> simp [newDb, hc, hr, hm]
    | none =>
      exfalso
      simp [newDb, hc, hr, hm] at he

/-- Witness for C9 at a concrete input: the `synchronous` pragma
fails. -/
theorem new_failure_leaks_pool_witness :
    (newDb envSyncFail "" "data/example.db" st0).poolOpened = true ∧
    (newDb envSyncFail "" "data/example.db" st0).poolClosed = false ∧
    (newDb envSyncFail "" "data/example.db" st0).cancelCalled = false :=
  new_failure_leaks_pool envSyncFail "" "data/example.db" st0
    "foreign keys pragma: exec failed" rfl (by decide)

example : (migrate envW ["migration/0002_add_col.sql",
    "migration/0001_init.sql"] st0).1 = none := by decide

example : migrate envW ["migration/0001_init.sql"] st0 =
    (none, st1W, tr1W) := by decide

example : (newDb envSyncFail "" "data/example.db" st0).result =
    .error "foreign keys pragma: exec failed" := by decide

example : (newDb envAllOk "k" "data/example.db" st0).result =
    Except.ok handleW := by decide

example : (migrate envSqlFail ["migration/0001_init.sql",
    "migration/0002_add_col.sql"] st0).1 =
    some (wrapErr "migration/0002_add_col.sql" "SQL logic error") := by decide

end SqliteGo
